import Mathlib

/-!
Shallow embedding of the reliable delivery pipeline of the
distributed-notification-system repository, together with theorems settling
the frozen claims about it.

Embedded components:
- src/shared/utils/circuit_breaker.py : CircuitBreaker (state machine)
- src/shared/utils/retry.py          : exponential_backoff, retry_with_backoff
- src/shared/utils/redis_client.py   : check_rate_limit, idempotency markers
- src/api_gateway/main.py            : send_notification admission endpoint
- src/email_service/main.py, src/push_service/main.py :
    in-process queue consumers (their consume callbacks, which fail every
    message on an undeclared NotificationPayload attribute)
- src/email_service/worker.py, src/push_service/worker.py :
    standalone queue workers (second iteration of the channel workers)

Machine integers are modelled as Int/Nat (all arithmetic in the source stays
far from any overflow), wall-clock instants as Int, fallible calls as Except
or as explicit outcome parameters, and the external stores (Redis, RabbitMQ)
as explicit state threaded through each operation.
-/

/-! ## Circuit breaker (src/shared/utils/circuit_breaker.py) -/

inductive CircuitState where
  | closed
  | opened
  | halfOpen
deriving DecidableEq, Repr

/-- Mirror of class CircuitBreaker: configuration plus mutable fields
failure_count, last_failure_time, state. Time instants are Int seconds. -/
structure CircuitBreaker where
  failure_threshold : Nat
  recovery_timeout : Int
  failure_count : Nat
  last_failure_time : Option Int
  state : CircuitState
deriving DecidableEq, Repr

/-- Mirror of CircuitBreaker.__init__ defaults applied with explicit
threshold and timeout: counters zeroed, state CLOSED. -/
def CircuitBreaker.fresh (failure_threshold : Nat) (recovery_timeout : Int) :
    CircuitBreaker :=
  { failure_threshold := failure_threshold
    recovery_timeout := recovery_timeout
    failure_count := 0
    last_failure_time := none
    state := CircuitState.closed }

/-- Mirror of CircuitBreaker._should_attempt_reset:
last_failure_time is not None and now - last_failure_time >= recovery_timeout. -/
def CircuitBreaker.should_attempt_reset (cb : CircuitBreaker) (now : Int) : Bool :=
  match cb.last_failure_time with
  | none => false
  | some t => decide (now - t ≥ cb.recovery_timeout)

/-- Mirror of CircuitBreaker._on_success: only a HALF_OPEN breaker changes,
becoming CLOSED with failure_count reset to 0. -/
def CircuitBreaker.on_success (cb : CircuitBreaker) : CircuitBreaker :=
  if cb.state = CircuitState.halfOpen then
    { cb with state := CircuitState.closed, failure_count := 0 }
  else
    cb

/-- Mirror of CircuitBreaker._on_failure: increment failure_count, stamp
last_failure_time, and open once the count reaches failure_threshold. -/
def CircuitBreaker.on_failure (cb : CircuitBreaker) (now : Int) : CircuitBreaker :=
  let cb1 := { cb with
    failure_count := cb.failure_count + 1
    last_failure_time := some now }
  if cb1.failure_count ≥ cb1.failure_threshold then
    { cb1 with state := CircuitState.opened }
  else
    cb1

/-- Result of CircuitBreaker.call: the wrapped value, a
CircuitBreakerOpenException, or the re-raised underlying exception. -/
inductive CallOutcome (ε α : Type) where
  | ok (a : α)
  | circuitOpen
  | err (e : ε)
deriving DecidableEq, Repr

/-- The try/except body of CircuitBreaker.call: run the guarded operation,
record success or failure, and return or re-raise. -/
def CircuitBreaker.try_call (cb : CircuitBreaker) (now : Int)
    (f : Except ε α) : CallOutcome ε α × CircuitBreaker :=
  match f with
  | Except.ok a => (CallOutcome.ok a, cb.on_success)
  | Except.error e => (CallOutcome.err e, cb.on_failure now)

/-- Mirror of CircuitBreaker.call. The guarded operation is modelled by the
value f of its single invocation at time now; when the breaker rejects the
call, f is ignored (the operation is not invoked). -/
def CircuitBreaker.call (cb : CircuitBreaker) (now : Int)
    (f : Except ε α) : CallOutcome ε α × CircuitBreaker :=
  if cb.state = CircuitState.opened then
    if cb.should_attempt_reset now then
      CircuitBreaker.try_call { cb with state := CircuitState.halfOpen } now f
    else
      (CallOutcome.circuitOpen, cb)
  else
    cb.try_call now f

/-- State reached after a sequence of guarded calls, each given as a
timestamp and the invocation result of the guarded operation. -/
def CircuitBreaker.runCalls (cb : CircuitBreaker)
    (calls : List (Int × Except ε α)) : CircuitBreaker :=
  calls.foldl (fun c p => (c.call p.1 p.2).2) cb

/-! ## Retry executor (src/shared/utils/retry.py) -/

/-- Mirror of exponential_backoff: factor * (base ** attempt). -/
def exponential_backoff (attempt : Nat) (base : Int) (factor : Int) : Int :=
  factor * base ^ attempt

/-- Result of the retry_with_backoff wrapper: the wrapped value or a
MaxRetriesExceededException carrying last_exception. -/
inductive RetryOutcome (ε α : Type) where
  | ok (a : α)
  | maxRetriesExceeded (last_exception : Option ε)
deriving DecidableEq, Repr

/-- The for-attempt-in-range(max_attempts) loop of retry_with_backoff.
op j is the invocation result of the wrapped function on loop iteration j
(0-based, as in the source). remaining counts the loop iterations left after
the current one, so that 0 < remaining is the source's
attempt < max_attempts - 1 guard. The second component accumulates the
backoff sleeps performed, in order. -/
def retry_loop (op : Nat → Except ε α) (base factor : Int) :
    Nat → Nat → Option ε → List Int → RetryOutcome ε α × List Int
  | _, 0, last_exception, sleeps =>
      (RetryOutcome.maxRetriesExceeded last_exception, sleeps)
  | attempt, remaining + 1, _, sleeps =>
      match op attempt with
      | Except.ok a => (RetryOutcome.ok a, sleeps)
      | Except.error e =>
          if 0 < remaining then
            retry_loop op base factor (attempt + 1) remaining (some e)
              (sleeps ++ [exponential_backoff (attempt + 1) base factor])
          else
            retry_loop op base factor (attempt + 1) remaining (some e) sleeps

/-- Mirror of the wrapper produced by retry_with_backoff: attempts start at
0 with max_attempts iterations available, no last exception, no sleeps yet. -/
def retry_with_backoff (op : Nat → Except ε α) (max_attempts : Nat)
    (base factor : Int) : RetryOutcome ε α × List Int :=
  retry_loop op base factor 0 max_attempts none []

/-! ## Redis client (src/shared/utils/redis_client.py) -/

/-- The (is_allowed, remaining_requests) pair returned by check_rate_limit. -/
structure RateLimitResult where
  is_allowed : Bool
  remaining : Int
deriving DecidableEq, Repr

/-- Full effect of one check_rate_limit call: its return value, the value of
the rate_limit:user key afterwards (none when absent), and the TTL installed
by setex when the key is created. -/
structure RateLimitEffect where
  result : RateLimitResult
  counter : Option Nat
  ttl_set : Option Nat
deriving DecidableEq, Repr

/-- Mirror of RedisClient.check_rate_limit. counter is the current value of
the user's rate_limit key (none when absent or expired); redis_up is false
when the Redis calls raise, which the source catches, logging and failing
open with (True, limit). -/
def check_rate_limit (redis_up : Bool) (counter : Option Nat)
    (limit : Int) (window : Nat) : RateLimitEffect :=
  if redis_up then
    match counter with
    | none =>
        { result := { is_allowed := true, remaining := limit - 1 }
          counter := some 1
          ttl_set := some window }
    | some current_count =>
        if (current_count : Int) ≥ limit then
          { result := { is_allowed := false, remaining := 0 }
            counter := some current_count
            ttl_set := none }
        else
          let new_count := current_count + 1
          { result := { is_allowed := true, remaining := limit - (new_count : Int) }
            counter := some new_count
            ttl_set := none }
  else
    { result := { is_allowed := true, remaining := limit }
      counter := counter
      ttl_set := none }

/-- Results of a sequence of back-to-back check_rate_limit calls for one
user inside one window (no expiry between calls), starting from a given
counter value and threading the counter through. -/
def rate_limit_seq (redis_up : Bool) (limit : Int) (window : Nat) :
    Nat → Option Nat → List RateLimitResult
  | 0, _ => []
  | n + 1, counter =>
      let e := check_rate_limit redis_up counter limit window
      e.result :: rate_limit_seq redis_up limit window n e.counter

/-! ## Status records and shared store state -/

/-- A notification:status JSON object. The source writes schemaless dicts;
the fields below are the union of the keys the embedded code reads or
writes, with none standing for an absent key. Timestamps are abstract Nat
instants and the created/updated instants irrelevant to the claims are
dropped. -/
structure StatusRecord where
  status : String
  error : Option String
  error_message : Option String
  delivered_at : Option Nat
deriving DecidableEq, Repr

/-- Key of the status record for an identifier, per
notification:status:{id}. -/
def status_key (id : String) : String :=
  "notification:status:" ++ id

/-- Write-through of RedisClient.set on an association-list store: replace
the binding of key, or prepend it. -/
def set_store (store : List (String × StatusRecord)) (key : String)
    (v : StatusRecord) : List (String × StatusRecord) :=
  match store with
  | [] => [(key, v)]
  | (k, w) :: rest =>
      if k = key then (k, v) :: rest else (k, w) :: set_store rest key v

/-- Lookup of RedisClient.get on an association-list store. -/
def get_store (store : List (String × StatusRecord)) (key : String) :
    Option StatusRecord :=
  match store with
  | [] => none
  | (k, w) :: rest => if k = key then some w else get_store rest key

/-! ## API gateway admission endpoint (src/api_gateway/main.py) -/

/-- The fields of NotificationPayload that the admission endpoint uses.
user_id stands for the rate-limit bucket derived from the user UUID
(int(uuid) mod 2^31 in the source, an injective renaming for the purposes
of the admission path). -/
structure NotificationPayload where
  notification_type : String
  user_id : String
  template_code : String
  request_id : String
deriving DecidableEq, Repr

/-- External state touched by send_notification: idempotency markers
(notification:processed keys present), status records, per-user rate-limit
counters, and the log of broker publishes as (routing_key, message_id)
pairs in order. -/
structure GatewayState where
  processed_markers : List String
  status_store : List (String × StatusRecord)
  rate_counters : List (String × Nat)
  broker_log : List (String × String)
deriving DecidableEq, Repr

/-- Replace or create a rate counter binding; a none new value means no
Redis write happened, leaving the store as it was. -/
def set_counter (counters : List (String × Nat)) (user : String) :
    Option Nat → List (String × Nat)
  | none => counters
  | some v =>
      match counters with
      | [] => [(user, v)]
      | (k, w) :: rest =>
          if k = user then (k, v) :: rest
          else (k, w) :: set_counter rest user (some v)

/-- Current counter of a user. -/
def get_counter (counters : List (String × Nat)) (user : String) : Option Nat :=
  match counters with
  | [] => none
  | (k, w) :: rest => if k = user then some w else get_counter rest user

/-- Responses of the admission endpoint: the already_processed success
payload, the 429 rate-limit rejection, the queued success payload carrying
the fresh notification id and remaining quota, and the 500 raised when the
broker publish fails. -/
inductive AdmitResponse where
  | already_processed
  | rate_limited
  | queued (notification_id : String) (remaining : Int)
  | server_error
deriving DecidableEq, Repr

/-- The "pending" status record written by the gateway
(NotificationStatusUpdate with status=pending, error=None). -/
def pending_record : StatusRecord :=
  { status := "pending", error := none, error_message := none,
    delivered_at := none }

/-- Mirror of the body of send_notification in src/api_gateway/main.py:
idempotency check, rate-limit check, StatusRecord write under a fresh
notification id, broker publish with message_id = request_id, and finally
the idempotency marker. fresh_id models str(uuid.uuid4()); redis_up models
whether the rate-limit store raises; publish_ok models whether
basic_publish raises (a raise propagates as a 500 after the except clause
re-raises it as HTTPException). -/
def send_notification (st : GatewayState) (payload : NotificationPayload)
    (fresh_id : String) (redis_up : Bool) (publish_ok : Bool)
    (limit : Int) (window : Nat) : AdmitResponse × GatewayState :=
  if payload.request_id ∈ st.processed_markers then
    (AdmitResponse.already_processed, st)
  else
    let rl := check_rate_limit redis_up (get_counter st.rate_counters payload.user_id)
      limit window
    let st1 := { st with rate_counters := set_counter st.rate_counters payload.user_id rl.counter }
    if rl.result.is_allowed = false then
      (AdmitResponse.rate_limited, st1)
    else
      let st2 := { st1 with
        status_store := set_store st1.status_store (status_key fresh_id) pending_record }
      if publish_ok = false then
        (AdmitResponse.server_error, st2)
      else
        let st3 := { st2 with
          broker_log := st2.broker_log ++ [(payload.notification_type, payload.request_id)] }
        let st4 := { st3 with
          processed_markers := st3.processed_markers ++ [payload.request_id] }
        (AdmitResponse.queued fresh_id rl.result.remaining, st4)

/-- Number of broker publishes whose message_id is the given request id. -/
def publish_count (st : GatewayState) (request_id : String) : Nat :=
  (st.broker_log.filter (fun p => p.2 = request_id)).length

/-- Number of idempotency markers present for the given request id. -/
def marker_count (st : GatewayState) (request_id : String) : Nat :=
  st.processed_markers.count request_id

/-! ## Channel workers

Shared modelling for the two iterations of each channel worker:
the in-process consumers of src/email_service/main.py and
src/push_service/main.py, and the standalone workers of
src/email_service/worker.py and src/push_service/worker.py. -/

/-- UserPreference flags as stored by the user collaborator; the consumers
read email_enabled / push_enabled. -/
structure UserPreferences where
  email_enabled : Bool
  push_enabled : Bool
deriving DecidableEq, Repr

/-- The user record the standalone email worker fetches from the user cache:
it carries the address and the stored preferences (which that worker never
reads). -/
structure UserRecord where
  email : String
  preferences : UserPreferences
deriving DecidableEq, Repr

/-- Outcome of invoking the breaker-and-retry wrapped provider send
(send_email_smtp / send_push_onesignal / send_push_notification):
normal return, CircuitBreakerOpenException, MaxRetriesExceededException
with its message text, or any other exception with its text. -/
inductive SendOutcome where
  | ok
  | circuit_open
  | max_retries (msg : String)
  | failure (msg : String)
deriving DecidableEq, Repr

/-- External state a consumer touches: status records, the dead-letter
queue contents as (request_id, failure_reason) pairs, and the log of
requeue publishes as (routing_key, request_id) pairs. -/
structure WorkerState where
  status_store : List (String × StatusRecord)
  dead_letters : List (String × String)
  requeues : List (String × String)
deriving DecidableEq, Repr

/-- Observable steps taken while handling one message; provider_send is the
invocation of the wrapped provider-send operation. -/
inductive WorkerEvent where
  | provider_send
  | status_write
  | dlq_publish
  | requeue_publish
deriving DecidableEq, Repr

/-- Disposition of the delivered message at the broker. -/
inductive AckAction where
  | ack
  | nack_requeue
  | nack_no_requeue
deriving DecidableEq, Repr

/-! ### In-process consumers (src/email_service/main.py,
src/push_service/main.py)

Both in-process consumers fail on every message before any delivery logic
runs: the consume callback (email main.py:258, push main.py:291) and the
first statement of process_email_notification / process_push_notification
(email main.py:144, push main.py:166, outside the try block) read
payload.correlation_id, and the try body would later pass
payload.template_id to render_template (email main.py:178, push
main.py:206), but NotificationPayload in
src/shared/schemas/notification_schema.py declares neither field, and
attribute access on a pydantic model raises AttributeError for an
undeclared name. The callback except clause then runs
basic_nack(requeue=True). The preference skip, provider send, sent/failed
StatusRecord updates and dead-letter publish below the failing access are
unreachable, so only the attribute access that guards them is modelled. -/

/-- Field names declared by NotificationPayload in
src/shared/schemas/notification_schema.py. -/
def notification_payload_fields : List String :=
  ["notification_type", "user_id", "template_code", "variables",
   "request_id", "priority", "metadata"]

/-- Mirror of Python attribute access payload.name on a parsed
NotificationPayload: true when name is a declared field, false when the
access raises AttributeError. -/
def payload_attr_ok (name : String) : Bool :=
  notification_payload_fields.contains name

/-- Mirror of the consume_email_queue callback of src/email_service/main.py
on a successfully parsed message: its logging call reads
payload.correlation_id (as would process_email_notification in its first
statement, outside its try block), the access raises AttributeError because
NotificationPayload declares no such field, and the except clause runs
basic_nack(requeue=True) -- no acknowledgment, no provider call, no
StatusRecord write, no dead-letter publish, no requeue publish. The ack
branch is taken only if correlation_id were declared; the processing behind
it is unreachable in the source and not modelled. -/
def email_svc_callback (st : WorkerState) (request_id : String) :
    WorkerState × AckAction × List WorkerEvent :=
  if payload_attr_ok "correlation_id" then
    (st, AckAction.ack, [])
  else
    (st, AckAction.nack_requeue, [])

/-- Mirror of the consume_push_queue callback of src/push_service/main.py
on a successfully parsed message: same failing payload.correlation_id
access as the email consumer (push main.py:291 in the callback, main.py:166
in process_push_notification), so basic_nack(requeue=True) with the state
untouched. -/
def push_svc_callback (st : WorkerState) (request_id : String) :
    WorkerState × AckAction × List WorkerEvent :=
  if payload_attr_ok "correlation_id" then
    (st, AckAction.ack, [])
  else
    (st, AckAction.nack_requeue, [])

/-! ### Standalone workers (src/email_service/worker.py,
src/push_service/worker.py) -/

/-- Mirror of process_email_notification in src/email_service/worker.py for
a message carrying the given notification_id. user_data is the cached user
record (its preferences field is never read by this worker); fallback_email
models variables.get('email', ...). The first component is the exception
text re-raised to the callback, none on success. -/
def process_email_notification_wkr (st : WorkerState)
    (notification_id : String) (user_data : Option UserRecord)
    (fallback_email : String) (send : SendOutcome) :
    Option String × WorkerState × List WorkerEvent :=
  let to_email := match user_data with
    | some u => u.email
    | none => fallback_email
  let _ := to_email
  match send with
  | SendOutcome.ok =>
      let r1 : StatusRecord :=
        { status := "delivered", error := none, error_message := none,
          delivered_at := none }
      let store1 := set_store st.status_store (status_key notification_id) r1
      (none, { st with status_store := store1 },
       [WorkerEvent.provider_send, WorkerEvent.status_write])
  | SendOutcome.circuit_open =>
      let r1 : StatusRecord :=
        { status := "failed", error := some "circuit open", error_message := none,
          delivered_at := none }
      let store1 := set_store st.status_store (status_key notification_id) r1
      (some "circuit open", { st with status_store := store1 },
       [WorkerEvent.provider_send, WorkerEvent.status_write])
  | SendOutcome.max_retries msg =>
      let r1 : StatusRecord :=
        { status := "failed", error := some msg, error_message := none,
          delivered_at := none }
      let store1 := set_store st.status_store (status_key notification_id) r1
      (some msg, { st with status_store := store1 },
       [WorkerEvent.provider_send, WorkerEvent.status_write])
  | SendOutcome.failure msg =>
      let r1 : StatusRecord :=
        { status := "failed", error := some msg, error_message := none,
          delivered_at := none }
      let store1 := set_store st.status_store (status_key notification_id) r1
      (some msg, { st with status_store := store1 },
       [WorkerEvent.provider_send, WorkerEvent.status_write])

/-- Mirror of the callback in src/email_service/worker.py: a normal return
from process_email_notification is followed by basic_ack; a raise is caught
and answered with basic_nack(requeue=False). Nothing on this path publishes
to the dead-letter queue. -/
def email_wkr_callback (st : WorkerState) (notification_id : String)
    (user_data : Option UserRecord) (fallback_email : String)
    (send : SendOutcome) : WorkerState × AckAction × List WorkerEvent :=
  let r := process_email_notification_wkr st notification_id user_data
    fallback_email send
  match r.1 with
  | none => (r.2.1, AckAction.ack, r.2.2)
  | some _ => (r.2.1, AckAction.nack_no_requeue, r.2.2)

/-- Mirror of process_push_notification in src/push_service/worker.py:
same shape as the standalone email worker (device-token resolution elided:
its result feeds only the provider call), with the success record also
carrying OneSignal bookkeeping fields not modelled here. -/
def process_push_notification_wkr (st : WorkerState)
    (notification_id : String) (send : SendOutcome) :
    Option String × WorkerState × List WorkerEvent :=
  match send with
  | SendOutcome.ok =>
      let r1 : StatusRecord :=
        { status := "delivered", error := none, error_message := none,
          delivered_at := none }
      let store1 := set_store st.status_store (status_key notification_id) r1
      (none, { st with status_store := store1 },
       [WorkerEvent.provider_send, WorkerEvent.status_write])
  | SendOutcome.circuit_open =>
      let r1 : StatusRecord :=
        { status := "failed", error := some "circuit open", error_message := none,
          delivered_at := none }
      let store1 := set_store st.status_store (status_key notification_id) r1
      (some "circuit open", { st with status_store := store1 },
       [WorkerEvent.provider_send, WorkerEvent.status_write])
  | SendOutcome.max_retries msg =>
      let r1 : StatusRecord :=
        { status := "failed", error := some msg, error_message := none,
          delivered_at := none }
      let store1 := set_store st.status_store (status_key notification_id) r1
      (some msg, { st with status_store := store1 },
       [WorkerEvent.provider_send, WorkerEvent.status_write])
  | SendOutcome.failure msg =>
      let r1 : StatusRecord :=
        { status := "failed", error := some msg, error_message := none,
          delivered_at := none }
      let store1 := set_store st.status_store (status_key notification_id) r1
      (some msg, { st with status_store := store1 },
       [WorkerEvent.provider_send, WorkerEvent.status_write])

/-- Mirror of the callback in src/push_service/worker.py: ack on normal
return, basic_nack(requeue=False) on a raise. -/
def push_wkr_callback (st : WorkerState) (notification_id : String)
    (send : SendOutcome) : WorkerState × AckAction × List WorkerEvent :=
  let r := process_push_notification_wkr st notification_id send
  match r.1 with
  | none => (r.2.1, AckAction.ack, r.2.2)
  | some _ => (r.2.1, AckAction.nack_no_requeue, r.2.2)

/-! ## The breaker-decorated async endpoint (src/api_gateway/main.py) -/

/-- A Python coroutine object: produced immediately when an async function
is called, holding the body whose outcome materialises only when the event
loop later awaits it. Calling the async function itself never raises. -/
structure Coroutine (α : Type) where
  awaited : α
deriving DecidableEq, Repr

/-- The breaker instance created by
circuit_breaker(failure_threshold=5, recovery_timeout=60,
name="send_notification") when the module loads. -/
def gateway_breaker : CircuitBreaker :=
  CircuitBreaker.fresh 5 60

/-- Mirror of the decorator wrapper around the async send_notification
endpoint: breaker.call(func, ...) invokes the async function, which returns
a coroutine object at once without running the handler body, so the guarded
call always takes the success path regardless of what the body will do when
awaited. body is that eventual outcome; Empty records that no exception can
reach the breaker. -/
def send_notification_wrapped (cb : CircuitBreaker) (now : Int)
    (body : AdmitResponse × GatewayState) :
    CallOutcome Empty (Coroutine (AdmitResponse × GatewayState)) × CircuitBreaker :=
  cb.call now (Except.ok { awaited := body })

/-- Breaker state after a sequence of endpoint invocations, each with its
wall-clock time and eventual handler-body outcome. -/
def run_gateway_calls (cb : CircuitBreaker)
    (calls : List (Int × (AdmitResponse × GatewayState))) : CircuitBreaker :=
  calls.foldl (fun c p => (send_notification_wrapped c p.1 p.2).2) cb

/-! ## Helper lemmas -/

theorem get_set_store_same (store : List (String × StatusRecord))
    (key : String) (v : StatusRecord) :
    get_store (set_store store key v) key = some v := by
  induction store with
  | nil => simp [set_store, get_store]
  | cons hd tl ih =>
      by_cases h : hd.1 = key
      · simp [set_store, get_store, h]
      · simp [set_store, get_store, h, ih]

theorem retry_loop_all_fail (op : Nat → Except ε α) (base factor : Int)
    (err : Nat → ε) :
    ∀ remaining attempt last sleeps, 0 < remaining →
    (∀ j, attempt ≤ j → j < attempt + remaining → op j = Except.error (err j)) →
    retry_loop op base factor attempt remaining last sleeps =
      (RetryOutcome.maxRetriesExceeded (some (err (attempt + remaining - 1))),
       sleeps ++ (List.range (remaining - 1)).map
         (fun i => exponential_backoff (attempt + i + 1) base factor)) := by
  intro remaining
  induction remaining with
  | zero => intro attempt last sleeps h; omega
  | succ r ih =>
      intro attempt last sleeps _ hop
      have hcur : op attempt = Except.error (err attempt) := by
        apply hop <;> omega
      by_cases hr : 0 < r
      · have step : retry_loop op base factor attempt (r + 1) last sleeps =
            retry_loop op base factor (attempt + 1) r (some (err attempt))
              (sleeps ++ [exponential_backoff (attempt + 1) base factor]) := by
          simp [retry_loop, hcur, hr]
        rw [step, ih (attempt + 1) (some (err attempt)) _ hr
          (by intro j hj1 hj2; apply hop <;> omega)]
        have harith : attempt + 1 + r - 1 = attempt + (r + 1) - 1 := by omega
        rw [harith]
        have hrange : List.range r = 0 :: (List.range (r - 1)).map Nat.succ := by
          have hr1 : r = (r - 1) + 1 := by omega
          conv_lhs => rw [hr1]
          rw [List.range_succ_eq_map]
        simp only [Nat.add_sub_cancel]
        rw [hrange]
        simp [List.map_map, List.append_assoc, Function.comp]
        intro i _
        congr 1
        omega
      · have hr0 : r = 0 := by omega
        subst hr0
        simp [retry_loop, hcur]

theorem retry_loop_success (op : Nat → Except ε α) (base factor : Int)
    (a : α) (k : Nat) :
    ∀ remaining attempt last sleeps,
    k < attempt + remaining → attempt ≤ k →
    (∀ j, attempt ≤ j → j < k → ∃ e, op j = Except.error e) →
    op k = Except.ok a →
    retry_loop op base factor attempt remaining last sleeps =
      (RetryOutcome.ok a,
       sleeps ++ (List.range (k - attempt)).map
         (fun i => exponential_backoff (attempt + i + 1) base factor)) := by
  intro remaining
  induction remaining with
  | zero => intro attempt last sleeps h1 h2; omega
  | succ r ih =>
      intro attempt last sleeps h1 h2 hop hk
      by_cases heq : attempt = k
      · subst heq
        simp [retry_loop, hk]
      · have hlt : attempt < k := by omega
        obtain ⟨e, he⟩ := hop attempt (le_refl _) hlt
        have hr : 0 < r := by omega
        have step : retry_loop op base factor attempt (r + 1) last sleeps =
            retry_loop op base factor (attempt + 1) r (some e)
              (sleeps ++ [exponential_backoff (attempt + 1) base factor]) := by
          simp [retry_loop, he, hr]
        rw [step, ih (attempt + 1) (some e) _ (by omega) (by omega)
          (by intro j hj1 hj2; exact hop j (by omega) hj2) hk]
        have hrange : List.range (k - attempt) =
            0 :: (List.range (k - (attempt + 1))).map Nat.succ := by
          have hka : k - attempt = (k - (attempt + 1)) + 1 := by omega
          rw [hka, List.range_succ_eq_map]
        rw [hrange]
        simp [List.map_map, List.append_assoc, Function.comp]
        intro i _
        congr 1
        omega

theorem call_ok_of_closed (cb : CircuitBreaker)
    (h : cb.state = CircuitState.closed) (now : Int) (a : α) :
    cb.call (ε := ε) now (Except.ok a) = (CallOutcome.ok a, cb) := by
  simp [CircuitBreaker.call, CircuitBreaker.try_call, CircuitBreaker.on_success, h]

/-! ## Claims -/

/-- Claim C5: the retry executor invokes the operation on attempts
1..max_attempts, sleeping backoff_factor * backoff_base^attempt seconds
after each failing attempt before the last, returns the value of the first
successful attempt after exactly the sleeps accumulated so far, and on
failure at the last attempt raises MaxRetriesExceeded carrying the final
underlying cause with no further sleep. Attempts are indexed from 0 here as
in the source loop, so 0-based attempt j is 1-based attempt j + 1 and the
sleep after failing iteration j is factor * base^(j+1). -/
theorem retry_executor_contract (op : Nat → Except ε α) (max_attempts : Nat)
    (base factor : Int) (a : α) (k : Nat) (err : Nat → ε) :
    (1 ≤ max_attempts →
     (∀ j, j < max_attempts → op j = Except.error (err j)) →
     retry_with_backoff op max_attempts base factor =
       (RetryOutcome.maxRetriesExceeded (some (err (max_attempts - 1))),
        (List.range (max_attempts - 1)).map
          (fun i => exponential_backoff (i + 1) base factor)))
  ∧ (k < max_attempts →
     (∀ j, j < k → ∃ e, op j = Except.error e) →
     op k = Except.ok a →
     retry_with_backoff op max_attempts base factor =
       (RetryOutcome.ok a,
        (List.range k).map (fun i => exponential_backoff (i + 1) base factor))) := by
  constructor
  · intro h1 hop
    have h := retry_loop_all_fail op base factor err max_attempts 0 none []
      (by omega) (by intro j hj1 hj2; exact hop j (by omega))
    rw [retry_with_backoff, h]
    simp
  · intro hk hop ha
    have h := retry_loop_success op base factor a k max_attempts 0 none []
      (by omega) (by omega) (by intro j hj1 hj2; exact hop j hj2) ha
    rw [retry_with_backoff, h]
    simp

theorem retry_executor_contract_witness :
    retry_with_backoff (fun j => if j < 2 then Except.error () else Except.ok ()) 3 2 1 =
      (RetryOutcome.ok (), [2, 4]) ∧
    retry_with_backoff (fun j => (Except.error j : Except Nat Unit)) 3 2 1 =
      (RetryOutcome.maxRetriesExceeded (some 2), [2, 4]) := by
  constructor
  · have h := (retry_executor_contract
      (fun j => if j < 2 then Except.error () else Except.ok ()) 3 2 1 () 2
      (fun _ => ())).2 (by decide)
      (by intro j hj; exact ⟨(), if_pos hj⟩) rfl
    rw [h]
    decide
  · have h := (retry_executor_contract (fun j => (Except.error j : Except Nat Unit))
      3 2 1 () 0 (fun j => j)).1 (by decide) (by intro j _; rfl)
    rw [h]
    decide

/-- Claim C3 counterexample: the claim predicts that with threshold 2, the
call sequence failure, success, failure starting from a fresh CLOSED
breaker leaves the breaker not yet OPEN, because at no point did 2
consecutive failures occur; the code opens it, since _on_success does not
reset failure_count while CLOSED. The second conjunct records that the
interleaved success left the count at 1, so the final failure was not the
second of a consecutive pair. -/
theorem consecutive_failures_counterexample :
    (CircuitBreaker.runCalls (CircuitBreaker.fresh 2 10)
      [((0 : Int), (Except.error () : Except Unit Unit)),
       (1, Except.ok ()), (2, Except.error ())]).state = CircuitState.opened
  ∧ (CircuitBreaker.runCalls (CircuitBreaker.fresh 2 10)
      [((0 : Int), (Except.error () : Except Unit Unit)),
       (1, Except.ok ())]).failure_count = 1 := by
  constructor <;> rfl

/-- Claim C3 as amended: in the CLOSED state a successful call leaves the
breaker entirely unchanged (in particular failure_count is not reset), and
a failing call increments failure_count and moves the breaker to OPEN
exactly when the cumulative count of failures since creation or since the
last reset reaches failure_threshold, regardless of interleaved successes. -/
theorem failure_count_cumulative (cb : CircuitBreaker) (now : Int)
    (e : ε) (a : α) (h : cb.state = CircuitState.closed) :
    (cb.call now (Except.ok a : Except ε α)).2 = cb
  ∧ (cb.call now (Except.error e : Except ε α)).2.failure_count = cb.failure_count + 1
  ∧ ((cb.call now (Except.error e : Except ε α)).2.state = CircuitState.opened ↔
      cb.failure_threshold ≤ cb.failure_count + 1) := by
  refine ⟨?_, ?_, ?_⟩
  · exact congrArg Prod.snd (call_ok_of_closed cb h now a)
  · simp [CircuitBreaker.call, CircuitBreaker.try_call, CircuitBreaker.on_failure, h]
    by_cases hth : cb.failure_threshold ≤ cb.failure_count + 1 <;> simp [hth]
  · simp [CircuitBreaker.call, CircuitBreaker.try_call, CircuitBreaker.on_failure, h]
    by_cases hth : cb.failure_threshold ≤ cb.failure_count + 1
    · simp [hth]
    · simp [hth, h]

theorem failure_count_cumulative_witness :
    ((CircuitBreaker.fresh 2 10).call 0 (Except.ok () : Except Unit Unit)).2 =
      CircuitBreaker.fresh 2 10
  ∧ ((CircuitBreaker.fresh 2 10).call 0
      (Except.error () : Except Unit Unit)).2.failure_count = 0 + 1
  ∧ (((CircuitBreaker.fresh 2 10).call 0
      (Except.error () : Except Unit Unit)).2.state = CircuitState.opened ↔
      2 ≤ 0 + 1) :=
  failure_count_cumulative (CircuitBreaker.fresh 2 10) 0 () () rfl

/-- The breaker state reached after three consecutive failures from a fresh
threshold-3, timeout-10 breaker: OPEN with the third failure time recorded. -/
def open_breaker (t : Int) : CircuitBreaker :=
  { failure_threshold := 3, recovery_timeout := 10, failure_count := 3,
    last_failure_time := some t, state := CircuitState.opened }

/-- Claim C6: with threshold 3 and recovery_timeout 10, three consecutive
failing calls move a fresh breaker from CLOSED to OPEN; a further call made
before 10s have elapsed since the last recorded failure is rejected with
CircuitBreakerOpenException without invoking the guarded operation (the
result is the same for every operation f and the breaker is untouched); the
first call at least 10s after the last failure runs as a HALF_OPEN probe:
a successful probe yields CLOSED with failure_count reset to 0, a failing
probe yields OPEN again with last_failure_time restarted at the probe
time. -/
theorem circuit_breaker_recovery (e1 e2 e3 : ε) (a : α) (t1 t2 t3 : Int) :
    CircuitBreaker.runCalls (CircuitBreaker.fresh 3 10)
      [(t1, (Except.error e1 : Except ε α)), (t2, Except.error e2),
       (t3, Except.error e3)] = open_breaker t3
  ∧ (∀ t4 (f : Except ε α), t4 - t3 < 10 →
      (open_breaker t3).call t4 f = (CallOutcome.circuitOpen, open_breaker t3))
  ∧ (∀ t5 : Int, 10 ≤ t5 - t3 →
      (open_breaker t3).call t5 (Except.ok a : Except ε α) =
        (CallOutcome.ok a,
         { open_breaker t3 with state := CircuitState.closed, failure_count := 0 }))
  ∧ (∀ (t5 : Int) (e : ε), 10 ≤ t5 - t3 →
      (open_breaker t3).call t5 (Except.error e : Except ε α) =
        (CallOutcome.err e,
         { open_breaker t3 with failure_count := 4, last_failure_time := some t5 })) := by
  refine ⟨?_, ?_, ?_, ?_⟩
  · simp [CircuitBreaker.runCalls, CircuitBreaker.call, CircuitBreaker.try_call,
      CircuitBreaker.on_failure, CircuitBreaker.fresh, open_breaker]
  · intro t4 f h
    have hr : (open_breaker t3).should_attempt_reset t4 = false := by
      simp [CircuitBreaker.should_attempt_reset, open_breaker]
      omega
    simp [CircuitBreaker.call, open_breaker] at hr ⊢
    simp [hr]
  · intro t5 h
    have hr : (open_breaker t3).should_attempt_reset t5 = true := by
      simp [CircuitBreaker.should_attempt_reset, open_breaker]
      omega
    simp [CircuitBreaker.call, open_breaker] at hr ⊢
    simp [hr, CircuitBreaker.try_call, CircuitBreaker.on_success]
  · intro t5 e h
    have hr : (open_breaker t3).should_attempt_reset t5 = true := by
      simp [CircuitBreaker.should_attempt_reset, open_breaker]
      omega
    simp [CircuitBreaker.call, open_breaker] at hr ⊢
    simp [hr, CircuitBreaker.try_call, CircuitBreaker.on_failure]

theorem circuit_breaker_recovery_witness :
    ((open_breaker 2).call 5 (Except.error () : Except Unit Unit) =
      (CallOutcome.circuitOpen, open_breaker 2))
  ∧ ((open_breaker 2).call 12 (Except.ok () : Except Unit Unit) =
      (CallOutcome.ok (),
       { open_breaker 2 with state := CircuitState.closed, failure_count := 0 }))
  ∧ ((open_breaker 2).call 12 (Except.error () : Except Unit Unit) =
      (CallOutcome.err (),
       { open_breaker 2 with failure_count := 4, last_failure_time := some 12 })) := by
  refine ⟨?_, ?_, ?_⟩
  · exact (circuit_breaker_recovery () () () () 0 1 2).2.1 5 _ (by decide)
  · exact (circuit_breaker_recovery () () () () 0 1 2).2.2.1 12 (by decide)
  · exact (circuit_breaker_recovery () () () () 0 1 2).2.2.2 12 () (by decide)

/-- Claim C10: because the admission endpoint is an async function, the
decorator's breaker.call receives a coroutine object from the invocation
without the handler body running, so the breaker records a success on every
request no matter what the body later does: starting from the module-level
breaker it stays exactly in its initial CLOSED state with failure_count 0
after any sequence of requests, and no request is ever rejected with
CircuitBreakerOpenException. -/
theorem gateway_breaker_never_opens
    (calls : List (Int × (AdmitResponse × GatewayState))) :
    run_gateway_calls gateway_breaker calls = gateway_breaker
  ∧ (∀ (now : Int) (body : AdmitResponse × GatewayState),
      send_notification_wrapped gateway_breaker now body =
        (CallOutcome.ok { awaited := body }, gateway_breaker)) := by
  have hstep : ∀ (now : Int) (body : AdmitResponse × GatewayState),
      send_notification_wrapped gateway_breaker now body =
        (CallOutcome.ok { awaited := body }, gateway_breaker) := by
    intro now body
    rw [send_notification_wrapped, call_ok_of_closed _ rfl]
  refine ⟨?_, hstep⟩
  induction calls with
  | nil => rfl
  | cons hd tl ih =>
      show List.foldl _ _ (hd :: tl) = _
      rw [List.foldl_cons]
      have h2 : (send_notification_wrapped gateway_breaker hd.1 hd.2).2 =
          gateway_breaker := by rw [hstep]
      rw [h2]
      exact ih

/-- Claim C4: the rate-limit check creates a counter of 1 with TTL = window
and reports remaining = limit - 1 on the first request of a window; a
subsequent admitted request increments the counter to new_count and reports
remaining = limit - new_count; a request finding the counter at or above
the limit is rejected with remaining 0 and no counter change; when the
rate-limit store raises, the request is allowed with remaining reported as
the full limit and no store change (fail open). The final conjunct is the
spec's limit-5 scenario: six back-to-back requests report
(allowed, remaining) values 4,3,2,1,0 and then a rejection with 0. -/
theorem rate_limit_contract (limit : Int) (window : Nat) (n : Nat)
    (counter : Option Nat) :
    (check_rate_limit true none limit window =
      { result := { is_allowed := true, remaining := limit - 1 },
        counter := some 1, ttl_set := some window })
  ∧ (limit ≤ (n : Int) →
      check_rate_limit true (some n) limit window =
        { result := { is_allowed := false, remaining := 0 },
          counter := some n, ttl_set := none })
  ∧ ((n : Int) < limit →
      check_rate_limit true (some n) limit window =
        { result := { is_allowed := true, remaining := limit - ((n : Int) + 1) },
          counter := some (n + 1), ttl_set := none })
  ∧ (check_rate_limit false counter limit window =
      { result := { is_allowed := true, remaining := limit },
        counter := counter, ttl_set := none })
  ∧ rate_limit_seq true 5 60 6 none =
      [{ is_allowed := true, remaining := 4 }, { is_allowed := true, remaining := 3 },
       { is_allowed := true, remaining := 2 }, { is_allowed := true, remaining := 1 },
       { is_allowed := true, remaining := 0 }, { is_allowed := false, remaining := 0 }] := by
  refine ⟨?_, ?_, ?_, ?_, ?_⟩
  · simp [check_rate_limit]
  · intro h
    simp [check_rate_limit]
    omega
  · intro h
    simp [check_rate_limit]
    omega
  · simp [check_rate_limit]
  · rfl

theorem rate_limit_contract_witness :
    (check_rate_limit true (some 5) 5 60 =
      { result := { is_allowed := false, remaining := 0 },
        counter := some 5, ttl_set := none })
  ∧ (check_rate_limit true (some 2) 5 60 =
      { result := { is_allowed := true, remaining := 5 - ((2 : Int) + 1) },
        counter := some 3, ttl_set := none }) :=
  ⟨(rate_limit_contract 5 60 5 none).2.1 (by decide),
   (rate_limit_contract 5 60 2 none).2.2.1 (by decide)⟩

/-- Claim C1: an admission whose request_id already has an idempotency
marker returns already_processed with the whole gateway state untouched --
no rate-limit read or increment, no status write, no publish, no new marker
(the result is also independent of store availability and broker success);
and after a first submission of an unmarked request_id that returns queued,
the state holds exactly one marker and exactly one more publish for that
request_id, and a second submission returns already_processed leaving the
state unchanged again. -/
theorem idempotent_admission :
    (∀ (st : GatewayState) (payload : NotificationPayload) (fresh_id : String)
       (redis_up publish_ok : Bool) (limit : Int) (window : Nat),
       payload.request_id ∈ st.processed_markers →
       send_notification st payload fresh_id redis_up publish_ok limit window =
         (AdmitResponse.already_processed, st))
  ∧ (∀ (st st1 : GatewayState) (payload : NotificationPayload)
       (fid1 fid2 : String) (ru1 ru2 pk2 : Bool) (limit : Int) (window : Nat)
       (rem : Int),
       payload.request_id ∉ st.processed_markers →
       send_notification st payload fid1 ru1 true limit window =
         (AdmitResponse.queued fid1 rem, st1) →
       marker_count st1 payload.request_id = 1
     ∧ publish_count st1 payload.request_id = publish_count st payload.request_id + 1
     ∧ send_notification st1 payload fid2 ru2 pk2 limit window =
         (AdmitResponse.already_processed, st1)) := by
  constructor
  · intro st payload fresh_id redis_up publish_ok limit window hm
    simp [send_notification, hm]
  · intro st st1 payload fid1 fid2 ru1 ru2 pk2 limit window rem hnm hrun
    by_cases hal : (check_rate_limit ru1 (get_counter st.rate_counters payload.user_id)
        limit window).result.is_allowed = false
    · simp [send_notification, hnm, hal] at hrun
    · simp only [Bool.not_eq_false] at hal
      simp [send_notification, hnm, hal] at hrun
      obtain ⟨-, hst1⟩ := hrun
      subst hst1
      refine ⟨?_, ?_, ?_⟩
      · simp [marker_count, List.count_append, List.count_eq_zero.mpr hnm]
      · simp [publish_count, List.filter_append]
      · simp [send_notification]

/-- The empty gateway state. -/
def empty_gateway_state : GatewayState :=
  { processed_markers := [], status_store := [], rate_counters := [],
    broker_log := [] }

/-- An email notification request with request id r1 for user u1. -/
def payload_r1 : NotificationPayload :=
  { notification_type := "email", user_id := "u1",
    template_code := "welcome", request_id := "r1" }

/-- Gateway state after admitting request r1 for user u1 through
notification id n1 from an empty initial state. -/
def c1_state1 : GatewayState :=
  { processed_markers := ["r1"],
    status_store := [(status_key "n1", pending_record)],
    rate_counters := [("u1", 1)],
    broker_log := [("email", "r1")] }

theorem idempotent_admission_witness :
    marker_count c1_state1 "r1" = 1
  ∧ publish_count c1_state1 "r1" = publish_count empty_gateway_state "r1" + 1
  ∧ send_notification c1_state1 payload_r1 "n2" false false 100 60 =
      (AdmitResponse.already_processed, c1_state1)
  ∧ send_notification c1_state1 payload_r1 "n3" true true 100 60 =
      (AdmitResponse.already_processed, c1_state1) := by
  have h2 := idempotent_admission.2 empty_gateway_state c1_state1 payload_r1
    "n1" "n2" true false false 100 60 99 (by simp [empty_gateway_state]) (by decide)
  have h1 := idempotent_admission.1 c1_state1 payload_r1 "n3" true true 100 60
    (by decide)
  exact ⟨h2.1, h2.2.1, h2.2.2, h1⟩

/-- Claim C7: the idempotency marker is set only after a successful broker
publish: when the publish raises after the idempotency check, rate-limit
check and StatusRecord write have run, the call reports a server error and
leaves a pending StatusRecord under the fresh notification id but no new
marker and no publish; a retried call with the same request_id (rate limit
permitting) then proceeds past the idempotency check, returns queued, and
publishes again, for one publish relative to the original state. -/
theorem marker_after_publish (st st1 : GatewayState)
    (payload : NotificationPayload) (fid1 fid2 : String) (ru1 ru2 : Bool)
    (limit : Int) (window : Nat) (resp1 : AdmitResponse)
    (hnm : payload.request_id ∉ st.processed_markers)
    (hal : (check_rate_limit ru1 (get_counter st.rate_counters payload.user_id)
      limit window).result.is_allowed = true)
    (hrun : send_notification st payload fid1 ru1 false limit window = (resp1, st1))
    (hal2 : (check_rate_limit ru2 (get_counter st1.rate_counters payload.user_id)
      limit window).result.is_allowed = true) :
    resp1 = AdmitResponse.server_error
  ∧ get_store st1.status_store (status_key fid1) = some pending_record
  ∧ st1.processed_markers = st.processed_markers
  ∧ st1.broker_log = st.broker_log
  ∧ (send_notification st1 payload fid2 ru2 true limit window).1 =
      AdmitResponse.queued fid2
        (check_rate_limit ru2 (get_counter st1.rate_counters payload.user_id)
          limit window).result.remaining
  ∧ publish_count (send_notification st1 payload fid2 ru2 true limit window).2
      payload.request_id = publish_count st payload.request_id + 1 := by
  simp [send_notification, hnm, hal] at hrun
  obtain ⟨hresp, hst1⟩ := hrun
  subst hst1
  refine ⟨hresp.symm, ?_, ?_, ?_, ?_, ?_⟩
  · simp [get_set_store_same]
  · rfl
  · rfl
  · simp [send_notification, hnm, hal2]
  · simp [send_notification, hnm, hal2, publish_count, List.filter_append]

/-- Gateway state left behind when the broker publish for request r1 raised
after the pending StatusRecord was written: record present, no marker, no
publish. -/
def c7_state1 : GatewayState :=
  { processed_markers := [],
    status_store := [(status_key "n1", pending_record)],
    rate_counters := [("u1", 1)],
    broker_log := [] }

theorem marker_after_publish_witness :
    AdmitResponse.server_error = AdmitResponse.server_error
  ∧ get_store c7_state1.status_store (status_key "n1") = some pending_record
  ∧ c7_state1.processed_markers = empty_gateway_state.processed_markers
  ∧ c7_state1.broker_log = empty_gateway_state.broker_log
  ∧ (send_notification c7_state1 payload_r1 "n2" true true 100 60).1 =
      AdmitResponse.queued "n2"
        (check_rate_limit true (get_counter c7_state1.rate_counters "u1")
          100 60).result.remaining
  ∧ publish_count (send_notification c7_state1 payload_r1 "n2" true true 100 60).2
      "r1" = publish_count empty_gateway_state "r1" + 1 :=
  marker_after_publish empty_gateway_state c7_state1 payload_r1 "n1" "n2"
    true true 100 60 AdmitResponse.server_error
    (by simp [empty_gateway_state]) (by decide) (by decide) (by decide)

/-- The empty worker-side store state. -/
def w_empty : WorkerState :=
  { status_store := [], dead_letters := [], requeues := [] }

/-- Worker-side state holding the pending status record of request r1. -/
def w_state0 : WorkerState :=
  { status_store := [(status_key "r1", pending_record)], dead_letters := [],
    requeues := [] }

/-- Claim C2 counterexample: in the standalone email worker cited by the
claim (src/email_service/worker.py), a message whose send raises
MaxRetriesExceeded leads to no Dead Letter Sink deposit at all and to a
basic_nack without requeue instead of an acknowledgment, refuting the
claimed one-deposit-and-ack behavior at this concrete input. -/
theorem dead_letter_worker_counterexample :
    ¬ ((email_wkr_callback w_empty "n1" none "fallback@example.com"
          (SendOutcome.max_retries "Max retries exceeded")).2.1 = AckAction.ack
      ∧ (email_wkr_callback w_empty "n1" none "fallback@example.com"
          (SendOutcome.max_retries "Max retries exceeded")).1.dead_letters.length = 1) := by
  decide

/-- Claim C2 as amended: no iteration of the channel worker makes a Dead
Letter Sink deposit on MaxRetriesExceeded. The standalone workers cited by
the claim (email_service/worker.py, push_service/worker.py) update the
StatusRecord to failed with the error text and reject the message with
basic_nack(requeue=False) instead of acknowledging it, depositing nothing;
the in-process consumers (email_service/main.py, push_service/main.py)
never reach a provider send at all: every parsed message raises
AttributeError on the undeclared payload.correlation_id attribute and is
basic_nack'd with requeue=True, leaving the state untouched. -/
theorem dead_letter_on_max_retries :
    (∀ (st : WorkerState) (nid : String) (user_data : Option UserRecord)
       (fallback_email msg : String),
       email_wkr_callback st nid user_data fallback_email
           (SendOutcome.max_retries msg) =
         ({ st with
              status_store := set_store st.status_store (status_key nid)
                { status := "failed", error := some msg, error_message := none,
                  delivered_at := none } },
          AckAction.nack_no_requeue,
          [WorkerEvent.provider_send, WorkerEvent.status_write]))
  ∧ (∀ (st : WorkerState) (nid msg : String),
       push_wkr_callback st nid (SendOutcome.max_retries msg) =
         ({ st with
              status_store := set_store st.status_store (status_key nid)
                { status := "failed", error := some msg, error_message := none,
                  delivered_at := none } },
          AckAction.nack_no_requeue,
          [WorkerEvent.provider_send, WorkerEvent.status_write]))
  ∧ (∀ (st : WorkerState) (rid : String),
       email_svc_callback st rid = (st, AckAction.nack_requeue, []))
  ∧ (∀ (st : WorkerState) (rid : String),
       push_svc_callback st rid = (st, AckAction.nack_requeue, [])) := by
  refine ⟨?_, ?_, ?_, ?_⟩
  · intro st nid user_data fallback_email msg
    rfl
  · intro st nid msg
    rfl
  · intro st rid
    rfl
  · intro st rid
    rfl

/-- Claim C8 counterexample: in the standalone email worker cited by the
claim, a message whose send succeeds gets its StatusRecord set to
"delivered", not "sent" (and with no delivered_at field), refuting the
claimed sent-with-delivered_at update at this concrete input. -/
theorem sent_status_worker_counterexample :
    ¬ ((get_store (email_wkr_callback w_state0 "r1" none "fallback@example.com"
          SendOutcome.ok).1.status_store (status_key "r1")).map
        StatusRecord.status = some "sent") := by
  decide

/-- Claim C8 as amended: on a successful provider send the standalone
workers cited by the claim (email_service/worker.py,
push_service/worker.py) write a StatusRecord with status "delivered" and no
delivered_at field and then acknowledge, not "sent" with delivered_at; the
in-process consumers (email_service/main.py, push_service/main.py) never
reach a successful send: every parsed message raises AttributeError on the
undeclared payload.correlation_id attribute and is basic_nack'd with
requeue=True, with no StatusRecord change and no acknowledgment. -/
theorem sent_status_on_success :
    (∀ (st : WorkerState) (nid : String) (user_data : Option UserRecord)
       (fallback_email : String),
       email_wkr_callback st nid user_data fallback_email SendOutcome.ok =
         ({ st with
              status_store := set_store st.status_store (status_key nid)
                { status := "delivered", error := none, error_message := none,
                  delivered_at := none } },
          AckAction.ack,
          [WorkerEvent.provider_send, WorkerEvent.status_write]))
  ∧ (∀ (st : WorkerState) (nid : String),
       push_wkr_callback st nid SendOutcome.ok =
         ({ st with
              status_store := set_store st.status_store (status_key nid)
                { status := "delivered", error := none, error_message := none,
                  delivered_at := none } },
          AckAction.ack,
          [WorkerEvent.provider_send, WorkerEvent.status_write]))
  ∧ (∀ (st : WorkerState) (rid : String),
       (email_svc_callback st rid).1 = st
     ∧ (email_svc_callback st rid).2.1 = AckAction.nack_requeue
     ∧ (email_svc_callback st rid).2.2 = [])
  ∧ (∀ (st : WorkerState) (rid : String),
       (push_svc_callback st rid).1 = st
     ∧ (push_svc_callback st rid).2.1 = AckAction.nack_requeue
     ∧ (push_svc_callback st rid).2.2 = []) := by
  refine ⟨?_, ?_, ?_, ?_⟩
  · intro st nid user_data fallback_email
    rfl
  · intro st nid
    rfl
  · intro st rid
    exact ⟨rfl, rfl, rfl⟩
  · intro st rid
    exact ⟨rfl, rfl, rfl⟩

/-- Claim C9 counterexample: the standalone email worker cited by the claim
never reads the stored preferences, so a message for a user whose
preferences disable the email channel still triggers the provider-send
invocation, the negation of the claimed no-provider-call behavior, at this
concrete input. -/
theorem skip_semantics_worker_counterexample :
    WorkerEvent.provider_send ∈
      (email_wkr_callback w_empty "n1"
        (some { email := "user@example.com",
                preferences := { email_enabled := false, push_enabled := false } })
        "fallback@example.com" SendOutcome.ok).2.2 := by
  decide

/-- Claim C9 as amended: neither worker iteration implements the
preference skip. The standalone workers cited by the claim
(email_service/worker.py, push_service/worker.py) never consult the stored
preferences and invoke the provider send on every message, whatever the
preference flags say; the in-process consumers (email_service/main.py,
push_service/main.py) basic_nack every parsed message with requeue=True
before any preference check is reached (the payload.correlation_id
attribute access raises AttributeError), making no provider call and no
StatusRecord change but no acknowledgment either. -/
theorem skip_semantics :
    (∀ (st : WorkerState) (nid : String) (user_rec : UserRecord)
       (fallback_email : String) (send : SendOutcome),
       (email_wkr_callback st nid (some user_rec) fallback_email send).2.2 =
         [WorkerEvent.provider_send, WorkerEvent.status_write])
  ∧ (∀ (st : WorkerState) (nid : String) (send : SendOutcome),
       (push_wkr_callback st nid send).2.2 =
         [WorkerEvent.provider_send, WorkerEvent.status_write])
  ∧ (∀ (st : WorkerState) (rid : String),
       email_svc_callback st rid = (st, AckAction.nack_requeue, [])
     ∧ WorkerEvent.provider_send ∉ (email_svc_callback st rid).2.2)
  ∧ (∀ (st : WorkerState) (rid : String),
       push_svc_callback st rid = (st, AckAction.nack_requeue, [])
     ∧ WorkerEvent.provider_send ∉ (push_svc_callback st rid).2.2) := by
  refine ⟨?_, ?_, ?_, ?_⟩
  · intro st nid user_rec fallback_email send
    cases send <;> rfl
  · intro st nid send
    cases send <;> rfl
  · intro st rid
    have h : email_svc_callback st rid = (st, AckAction.nack_requeue, []) := rfl
    exact ⟨h, by rw [h]; simp⟩
  · intro st rid
    have h : push_svc_callback st rid = (st, AckAction.nack_requeue, []) := rfl
    exact ⟨h, by rw [h]; simp⟩
